import Mathlib

/-!
Verification of the chart-to-XML emission engine in src/xlsxwriter/chart.py.

The XML token writer (xmlwriter.XMLwriter) is an external primitive per the
design document; we model its calls as emitted tokens.  Emission can stop
with a runtime fault (KeyError, TypeError, AttributeError, IndexError in the
Python source); an Emit value records the tokens written before the fault and
the fault itself, if any.
-/

namespace ChartXml

/-- Attribute values passed to the XML writer: strings, integers or rationals
(the source passes str, int and float values). -/
inductive AVal where
  | s : String → AVal
  | i : Int → AVal
  | q : Rat → AVal
deriving DecidableEq

/-- One attribute item handed to the XML writer.  The source normally passes
(key, value) pairs, but two sites build malformed items: an empty tuple
(`attributes = [()]` in _write_a_body_pr) and a 3-tuple
(`[(lang, en-US, style_attributes)]` in _write_a_r_pr; the stray nested
style-attribute list is elided from the model). -/
inductive Attr where
  | kv : String → AVal → Attr
  | unit : Attr
  | triple : String → AVal → Attr
deriving DecidableEq

/-- Tokens accepted by the XML writer primitive. -/
inductive Tok where
  | decl : Tok
  | startTag : String → List Attr → Tok
  | emptyTag : String → List Attr → Tok
  | dataEl : String → String → Tok
  | endTag : String → Tok
  | close : Tok
deriving DecidableEq

/-- Element name of a token, if it has one. -/
def Tok.name : Tok → Option String
  | .startTag n _ => some n
  | .emptyTag n _ => some n
  | .dataEl n _ => some n
  | .endTag n => some n
  | _ => none

/-- Does the token list contain an element (of any kind) with this name? -/
def hasTag (n : String) (ts : List Tok) : Bool :=
  ts.any (fun t => t.name = some n)

/-- Is the token an opening tag with this name? -/
def isStartOf (n : String) : Tok → Bool
  | .startTag m _ => m = n
  | _ => false

/-- Is the token a self-closed (empty) tag with this name? -/
def isEmptyOf (n : String) : Tok → Bool
  | .emptyTag m _ => m = n
  | _ => false

/-- Result of running a writer method: the tokens it sent to the XML layer
before returning or faulting, and the runtime fault if one was raised. -/
structure Emit where
  toks : List Tok
  fault : Option String
deriving DecidableEq

/-- A writer step that emits tokens and returns normally. -/
def emit (ts : List Tok) : Emit := ⟨ts, none⟩

/-- A writer step that raises a runtime fault (emitting nothing itself). -/
def Emit.fail (msg : String) : Emit := ⟨[], some msg⟩

/-- Sequential composition: Python executes b only when a did not raise, and
the tokens a wrote before raising remain on the output stream. -/
def Emit.seq (a b : Emit) : Emit :=
  match a.fault with
  | some m => ⟨a.toks, some m⟩
  | none => ⟨a.toks ++ b.toks, b.fault⟩

theorem Emit.seq_fault_isSome (a b : Emit) :
    (Emit.seq a b).fault.isSome = (a.fault.isSome || b.fault.isSome) := by
  rcases a with ⟨ta, fa⟩
  cases fa <;> simp [Emit.seq]

/-- Python truthiness of an optional string: absent, None and the empty
string are falsy. -/
def truthyS : Option String → Bool
  | some s => s ≠ ""
  | none => false

/-- Python `a or b` for an optional string a with default b. -/
def pyOrS (a : Option String) (b : String) : String :=
  match a with
  | some s => if s = "" then b else s
  | none => b

/-- Python truthiness of an optional small integer (0 and absent falsy). -/
def truthyN : Option Nat → Bool
  | some n => n ≠ 0
  | none => false

/-- Modelled from the spec: a normalized line property record produced by the
Property Resolver (Section 4.1, absent from src/): every field defaulted, with
a defined flag recording whether the user set anything.  The field none_
models the none key (an explicit no-line request). -/
structure LineRec where
  defined : Bool
  none_ : Bool
  color : Option String
  width : Option Rat
  dash_type : Option String
deriving DecidableEq

/-- Modelled from the spec: a normalized fill property record (Section 4.1,
resolver absent from src/). -/
structure FillRec where
  defined : Bool
  none_ : Bool
  color : Option String
deriving DecidableEq

/-- A record holding the line and fill keys read by _write_sp_pr. -/
structure FormatRec where
  line : LineRec
  fill : FillRec
deriving DecidableEq

/-- Modelled from the spec: a gridlines configuration (Section 4.4; the
builder _convert_axis_args is absent from src/).  The writers in src/ read it
both as attributes (gridlines.visible) and by subscript (gridlines[line]), so
the record is modelled as one entity supporting both reads. -/
structure Gridlines where
  visible : Bool
  line : LineRec
  fill : FillRec
deriving DecidableEq

/-- Modelled from the spec: a resolved font record; style attributes and latin
attributes are resolved separately because they are emitted on different child
elements (Section 4.1; the resolvers _get_font_style_attributes and
_get_font_latin_attributes are absent from src/). -/
structure Font where
  color : Option String
  styleAttrs : List Attr
  latinAttrs : List Attr
deriving DecidableEq

/-- Modelled from the spec: style attributes of an optional font (an absent
font resolves to no attributes). -/
def getFontStyleAttributes : Option Font → List Attr
  | some f => f.styleAttrs
  | none => []

/-- Modelled from the spec: latin attributes of an optional font. -/
def getFontLatinAttributes : Option Font → List Attr
  | some f => f.latinAttrs
  | none => []

/-- Modelled from the spec: _get_color (absent from src/) maps a user color to
the resolved RGB string; we take colors as already resolved. -/
def getColor (c : String) : String := c

/-- Modelled from the spec: a normalized marker record (Section 4.1, resolver
absent from src/). -/
structure MarkerRec where
  automatic : Bool
  typ : Option String
  size : Option Nat
  line : LineRec
  fill : FillRec
deriving DecidableEq

/-- Modelled from the spec: a normalized trendline record (Section 4.3,
resolver absent from src/). -/
structure TrendRec where
  typ : String
  order : Option Nat
  period : Option Nat
  forward : Option Rat
  backward : Option Rat
  trendName : Option String
  line : LineRec
  fill : FillRec
deriving DecidableEq

/-- Modelled from the spec: a normalized data-labels record (resolver absent
from src/). -/
structure LabelsRec where
  position : Option String
  value : Bool
  category : Bool
  series_name : Bool
  percentage : Bool
  leader_lines : Bool
deriving DecidableEq

/-- Modelled from the spec: a normalized error-bar record (resolver absent
from src/). -/
structure ErrBarRec where
  typ : String
  direction : Option String
  endcap : Bool
  errValue : Option Rat
  line : LineRec
  fill : FillRec
deriving DecidableEq

/-- The error-bars dict built in add_series.  Note: the source stores this
dict wrapped in a 1-tuple (a trailing comma on the assignment); the wrapping
is recorded in the add_series embedding comment, the payload here. -/
structure ErrBarsDict where
  x_error_bars : Option ErrBarRec
  y_error_bars : Option ErrBarRec
deriving DecidableEq

/-- Cached literal data for one formula: a list of points, None entries
allowed (the point writer skips them). -/
def CacheData := List (Option AVal)
deriving DecidableEq

/-- The series dict appended by add_series (source lines 140-160).  In the
source this is a plain dict; the series writers read it with attribute
access, which raises AttributeError on a dict (see writeSer, writeCat,
writeVal). -/
structure SeriesRec where
  values : Option String
  categories : Option String
  name : Option String
  name_formula : Option String
  name_id : Option Nat
  val_data_id : Option Nat
  cat_data_id : Option Nat
  line : LineRec
  fill : FillRec
  marker : Option MarkerRec
  trendline : Option TrendRec
  labels : Option LabelsRec
  invert_if_neg : Bool
  x2_axis : Option Bool
  y2_axis : Option Bool
  points : Option (List (Option FormatRec))
  error_bars : ErrBarsDict
deriving DecidableEq

/-- Crossing configuration of an axis: unset (None), the literal max, or an
explicit crossing value. -/
inductive Crossing where
  | unset : Crossing
  | atMax : Crossing
  | value : Rat → Crossing
deriving DecidableEq

/-- Modelled from the spec: the per-axis configuration record produced by
_convert_axis_args (absent from src/), with defaults and user overrides
merged (Section 3, Axis).  The defaults_num_format field models the
axis.defaults dict entry read by the number-format writers. -/
structure Axis where
  visible : Bool
  reverse : Bool
  position : Option String
  formula : Option String
  data_id : Option Nat
  axName : Option String
  name_font : Option Font
  num_font : Option Font
  num_format : String
  defaults_num_format : String
  num_format_linked : Bool
  major_tick_mark : Option String
  label_position : Option String
  crossing : Crossing
  major_gridlines : Option Gridlines
  minor_gridlines : Option Gridlines
  minV : Option Rat
  maxV : Option Rat
  log_base : Option Rat
  major_unit : Option Rat
  minor_unit : Option Rat
  major_unit_type : Option String
  minor_unit_type : Option String
deriving DecidableEq

/-- The title state set by set_title.  The chart holds none when set_title was
never called: the title attributes are not initialized in the constructor, so
reading them then raises AttributeError. -/
structure TitleRec where
  titleName : Option String
  formula : Option String
  data_id : Option Nat
  font : Option Font
deriving DecidableEq

/-- The table dict built by set_table (source lines 257-278). -/
structure TableRec where
  horizontal : Bool
  vertical : Bool
  outline : Bool
  show_keys : Bool
deriving DecidableEq

/-- The chart aggregate: the attributes set in the constructor (source lines
25-68) plus the attributes assigned later by setters (title, cross_between,
default_marker, series_gap, series_overlap), held as options whose none means
the attribute was never assigned.  The four axis fields are none for the
initial empty dicts, some for the record built by the (absent) axis
converter. -/
structure Chart where
  series : List SeriesRec
  embedded : Bool
  series_index : Nat
  style_id : Int
  axis_ids : List Nat
  axis2_ids : List Nat
  cat_has_num_fmt : Bool
  requires_category : Bool
  legend_position : String
  cat_axis_position : String
  val_axis_position : String
  formula_ids : List (String × Nat)
  formula_data : List (Option CacheData)
  horiz_cat_axis : Nat
  horiz_val_axis : Nat
  protection : Bool
  chartarea : Option FormatRec
  plotarea : Option FormatRec
  x_axis : Option Axis
  y_axis : Option Axis
  x2_axis : Option Axis
  y2_axis : Option Axis
  show_blanks : String
  show_hidden_data : Bool
  show_crosses : Bool
  table : Option TableRec
  title : Option TitleRec
  cross_between : Option String
  default_marker : Option MarkerRec
  series_gap : Option Int
  series_overlap : Option Int
  width : Nat
  height : Nat
deriving DecidableEq

/-- The chart state established by the constructor (source lines 25-68). -/
def chartInit : Chart where
  series := []
  embedded := false
  series_index := 0
  style_id := 2
  axis_ids := []
  axis2_ids := []
  cat_has_num_fmt := false
  requires_category := false
  legend_position := "right"
  cat_axis_position := "b"
  val_axis_position := "l"
  formula_ids := []
  formula_data := []
  horiz_cat_axis := 0
  horiz_val_axis := 1
  protection := false
  chartarea := none
  plotarea := none
  x_axis := none
  y_axis := none
  x2_axis := none
  y2_axis := none
  show_blanks := "gap"
  show_hidden_data := false
  show_crosses := true
  table := none
  title := none
  cross_between := none
  default_marker := none
  series_gap := none
  series_overlap := none
  width := 480
  height := 288

/-- A value or category range as supplied by the user: a range formula string
or a list of literal values. -/
inductive RangeSpec where
  | formula : String → RangeSpec
  | literal : List Int → RangeSpec
deriving DecidableEq

/-- Modelled from the spec: _list_to_formula (absent from src/) converts a
list of literal values into a synthetic formula string representing an inline
data source and passes range strings through unchanged (Section 4.2). -/
def listToFormula : Option RangeSpec → Option String
  | none => none
  | some (.formula f) => some f
  | some (.literal xs) =>
      some ("inline-data:" ++ String.intercalate "," (xs.map toString))

/-- Modelled from the spec: _process_names (absent from src/) returns the
literal name and the name formula; we take both as already split (Section 3,
Series: name is literal or formula). -/
def processNames (nm : Option String) (nf : Option String) :
    Option String × Option String :=
  (nm, nf)

/-- Look up a formula in the formula_ids table. -/
def lookupFormulaId (tbl : List (String × Nat)) (f : String) : Option Nat :=
  (tbl.find? (fun p => p.1 = f)).map (fun p => p.2)

/-- Modelled from the spec: _get_data_id (Section 4.2, absent from src/).
A falsy formula yields no id and no cache entry; a known formula yields its
existing id, backfilling the entry when its data is absent and new data is
supplied; otherwise a new entry is appended and its index returned. -/
def getDataId (ch : Chart) (formula : Option String) (data : Option CacheData) :
    Option Nat × Chart :=
  match formula with
  | none => (none, ch)
  | some f =>
    if f = "" then (none, ch)
    else
      match lookupFormulaId ch.formula_ids f with
      | some id =>
        if (ch.formula_data.getD id none).isNone ∧ data.isSome then
          (some id, { ch with formula_data := ch.formula_data.set id data })
        else (some id, ch)
      | none =>
        let id := ch.formula_data.length
        (some id,
         { ch with
            formula_ids := ch.formula_ids ++ [(f, id)],
            formula_data := ch.formula_data ++ [data] })

/-- Modelled from the spec: _get_line_properties (absent from src/) returns a
fully defaulted line record; with no options it returns the all-default
record with defined false (Section 4.1).  We take supplied options as already
normalized records. -/
def getLineProperties : Option LineRec → LineRec
  | some r => r
  | none =>
      { defined := false, none_ := false, color := none,
        width := none, dash_type := none }

/-- Modelled from the spec: _get_fill_properties (absent from src/),
analogous to the line resolver. -/
def getFillProperties : Option FillRec → FillRec
  | some r => r
  | none => { defined := false, none_ := false, color := none }

/-- set_style (source lines 217-225): None and ids outside 0..42 resolve to
the default 2. -/
def setStyle (style_id : Option Int) : Int :=
  let s := match style_id with | none => 2 | some v => v
  if s < 0 ∨ s > 42 then 2 else s

/-- The _write_style writer (source lines 405-415): the element is suppressed
for the default style id 2. -/
def writeStyle (style_id : Int) : List Tok :=
  if style_id = 2 then []
  else [Tok.emptyTag "c:style" [Attr.kv "val" (AVal.i style_id)]]

/-- show_blanks_as (source lines 227-242).  The source checks
`if not 'option' in valid_options`, testing the literal string option rather
than the argument; the literal is never a key of the table, so every
non-empty argument takes the warn-and-return branch. -/
def showBlanksAs (ch : Chart) (option : String) : Chart × List String :=
  if option = "" then (ch, [])
  else
    let valid_options := ["gap", "zero", "span"]
    if ¬ valid_options.contains "option" then
      (ch, ["Unknown show_blanks_as() option " ++ option])
    else
      ({ ch with show_blanks := option }, [])

/-- The raw option map accepted by add_series; each field is none when the
key is absent from the dict. -/
structure AddSeriesOptions where
  values : Option RangeSpec
  categories : Option RangeSpec
  optName : Option String
  name_formula : Option String
  categories_data : Option CacheData
  values_data : Option CacheData
  name_data : Option CacheData
  line : Option LineRec
  border : Option LineRec
  fill : Option FillRec
  marker : Option MarkerRec
  trendline : Option TrendRec
  y_error_bars : Option ErrBarRec
  x_error_bars : Option ErrBarRec
  points : Option (List (Option FormatRec))
  data_labels : Option LabelsRec
  invert_if_negative : Option Bool
  gap : Option Int
  overlap : Option Int
  x2_axis : Option Bool
  y2_axis : Option Bool
deriving DecidableEq

/-- add_series (source lines 70-160).  Returns the updated chart and the
warnings issued.  With no values key the call warns and returns before any
state is touched.  Note: the error_bars dict is stored wrapped in a 1-tuple
in the source (trailing comma, lines 115-117); the tuple wrapping is what
later makes _write_error_bars fail on attribute access. -/
def addSeries (ch : Chart) (options : AddSeriesOptions) : Chart × List String :=
  if options.values.isNone then
    (ch, ["Must specify values in add_series()"])
  else
    let warns :=
      if ch.requires_category ∧ options.categories.isNone then
        ["Must specify categories in add_series() for this chart type"]
      else []
    let values := listToFormula options.values
    let categories := listToFormula options.categories
    let np := processNames options.optName options.name_formula
    let r1 := getDataId ch categories options.categories_data
    let r2 := getDataId r1.2 values options.values_data
    let r3 := getDataId r2.2 options.name_formula options.name_data
    let ch := r3.2
    let line := getLineProperties options.line
    let line := match options.border with
      | some b => getLineProperties (some b)
      | none => line
    let fill := getFillProperties options.fill
    let ch := match options.gap with
      | some g => if g = 0 then ch else { ch with series_gap := some g }
      | none => ch
    let ch := match options.overlap with
      | some o => if o = 0 then ch else { ch with series_overlap := some o }
      | none => ch
    let series : SeriesRec :=
      { values := values
        categories := categories
        name := np.1
        name_formula := np.2
        name_id := r3.1
        val_data_id := r2.1
        cat_data_id := r1.1
        line := line
        fill := fill
        marker := options.marker
        trendline := options.trendline
        labels := options.data_labels
        invert_if_neg := options.invert_if_negative.getD false
        x2_axis := options.x2_axis
        y2_axis := options.y2_axis
        points := options.points
        error_bars :=
          { x_error_bars := options.x_error_bars,
            y_error_bars := options.y_error_bars } }
    ({ ch with series := ch.series ++ [series] }, warns)

/-- The _write_a_solid_fill writer (source lines 1777-1789): the srgbClr
child is present only for a truthy color. -/
def writeASolidFill (color : Option String) : List Tok :=
  [Tok.startTag "a:solidFill" []]
  ++ (match color with
      | some c =>
        if c = "" then []
        else [Tok.emptyTag "a:srgbClr" [Attr.kv "val" (AVal.s (getColor c))]]
      | none => [])
  ++ [Tok.endTag "a:solidFill"]

/-- The _write_a_ln writer (source lines 1737-1771).  A truthy width is
rounded to the nearest quarter point and converted to EMU; the Python int()
truncation is modelled by the floor, which agrees with it on the nonnegative
widths the conversion is meant for. -/
def writeALn (line : LineRec) : List Tok :=
  let attributes : List Attr :=
    match line.width with
    | some width =>
      if width = 0 then []
      else
        let w1 : Rat := (((width + 1/8) * 4).floor : Rat) / 4
        let w2 : Int := ((1/2 : Rat) + 12700 * w1).floor
        [Attr.kv "w" (AVal.i w2)]
    | none => []
  [Tok.startTag "a:ln" attributes]
  ++ (if line.none_ then [Tok.emptyTag "a:noFill" []]
      else
        match line.color with
        | some c => if c = "" then [] else writeASolidFill (some c)
        | none => [])
  ++ (match line.dash_type with
      | some d =>
        if d = "" then []
        else [Tok.emptyTag "a:prstDash" [Attr.kv "val" (AVal.s d)]]
      | none => [])
  ++ [Tok.endTag "a:ln"]

/-- Body of the _write_sp_pr writer (source lines 1712-1735) on a record that
has line and fill entries.  The source guards both branches with
`(record[key][defined]) is not None`; the defined flag is a boolean, never
None, so both guards always hold and the commented-out early return is gone,
hence fill content and the a:ln child are always written. -/
def spPrToks (r : FormatRec) : List Tok :=
  [Tok.startTag "c:spPr" []]
  ++ (if r.fill.none_ then [Tok.emptyTag "a:noFill" []]
      else writeASolidFill r.fill.color)
  ++ writeALn r.line
  ++ [Tok.endTag "c:spPr"]

/-- The _write_sp_pr writer as called on chart attributes: the chartarea and
plotarea start as empty dicts, on which the subscript series[fill] raises
KeyError. -/
def writeSpPr : Option FormatRec → Emit
  | none => Emit.fail "KeyError: fill"
  | some r => emit (spPrToks r)

/-- The _write_major_gridlines writer (source lines 1207-1223). -/
def writeMajorGridlines : Option Gridlines → List Tok
  | none => []
  | some g =>
    if ¬ g.visible then []
    else if g.line.defined then
      [Tok.startTag "c:majorGridlines" []]
      ++ spPrToks { line := g.line, fill := g.fill }
      ++ [Tok.endTag "c:majorGridlines"]
    else [Tok.emptyTag "c:majorGridlines" []]

/-- The _write_minor_gridlines writer (source lines 1225-1241). -/
def writeMinorGridlines : Option Gridlines → List Tok
  | none => []
  | some g =>
    if ¬ g.visible then []
    else if g.line.defined then
      [Tok.startTag "c:minorGridlines" []]
      ++ spPrToks { line := g.line, fill := g.fill }
      ++ [Tok.endTag "c:minorGridlines"]
    else [Tok.emptyTag "c:minorGridlines" []]

/-- The _write_axis_id writer (source lines 682-687). -/
def writeAxisId (v : Nat) : List Tok :=
  [Tok.emptyTag "c:axId" [Attr.kv "val" (AVal.i v)]]

/-- The _write_delete writer (source lines 2123-2128). -/
def writeDelete (v : Nat) : List Tok :=
  [Tok.emptyTag "c:delete" [Attr.kv "val" (AVal.i v)]]

/-- The _write_idx writer (source lines 560-565). -/
def writeIdx (v : Nat) : List Tok :=
  [Tok.emptyTag "c:idx" [Attr.kv "val" (AVal.i v)]]

/-- The _write_order writer (source lines 567-572). -/
def writeOrder (v : Nat) : List Tok :=
  [Tok.emptyTag "c:order" [Attr.kv "val" (AVal.i v)]]

/-- Python str.lstrip with the single strip character `=`: removes every
leading occurrence. -/
def pyLstripEq (s : String) : String :=
  String.mk (s.data.dropWhile (fun c => c = '='))

/-- Python str.startswith for the one-character prefix `=`. -/
def pyStartsWithEq (s : String) : Bool :=
  s.data.head? = some '='

/-- The _write_series_formula writer (source lines 657-664): a leading
equals sign triggers an lstrip of all leading equals signs, then the formula
is written as the c:f data element. -/
def writeSeriesFormula (formula : String) : List Tok :=
  let f := if pyStartsWithEq formula then pyLstripEq formula else formula
  [Tok.dataEl "c:f" f]

/-- The _write_scaling writer (source lines 1020-1037), with its four
required parameters. -/
def writeScaling (reverse : Bool) (minV maxV log_base : Option Rat) : List Tok :=
  [Tok.startTag "c:scaling" []]
  ++ (match log_base with
      | some b => if b = 0 then [] else [Tok.emptyTag "c:logBase" [Attr.kv "val" (AVal.q b)]]
      | none => [])
  ++ [Tok.emptyTag "c:orientation"
       [Attr.kv "val" (AVal.s (if reverse then "maxMin" else "minMax"))]]
  ++ (match maxV with
      | some v => [Tok.emptyTag "c:max" [Attr.kv "val" (AVal.q v)]]
      | none => [])
  ++ (match minV with
      | some v => [Tok.emptyTag "c:min" [Attr.kv "val" (AVal.q v)]]
      | none => [])
  ++ [Tok.endTag "c:scaling"]

/-- The _write_axis_pos writer (source lines 1080-1091): the position is
flipped when the opposing axis is reversed. -/
def writeAxisPos (v : String) (reverse : Bool) : List Tok :=
  let v :=
    if reverse then
      let v1 := if v = "l" then "r" else v
      if v1 = "b" then "t" else v1
    else v
  [Tok.emptyTag "c:axPos" [Attr.kv "val" (AVal.s v)]]

/-- The _write_number_format writer for value and date axes (source lines
1093-1114). -/
def writeNumberFormat (axis : Axis) : List Tok :=
  let source_linked : Int :=
    if axis.num_format ≠ axis.defaults_num_format then 0 else 1
  let source_linked := if axis.num_format_linked then 1 else source_linked
  [Tok.emptyTag "c:numFmt"
    [Attr.kv "formatCode" (AVal.s axis.num_format),
     Attr.kv "sourceLinked" (AVal.i source_linked)]]

/-- The _write_cat_number_format writer (source lines 1116-1141): category
axes suppress the element when the cached category data was not numeric and
the format is the default. -/
def writeCatNumberFormat (ch : Chart) (axis : Axis) : List Tok :=
  let non_default := axis.num_format ≠ axis.defaults_num_format
  let source_linked : Int := if non_default then 0 else 1
  let source_linked := if axis.num_format_linked then 1 else source_linked
  if ¬ ch.cat_has_num_fmt ∧ ¬ non_default then []
  else
    [Tok.emptyTag "c:numFmt"
      [Attr.kv "formatCode" (AVal.s axis.num_format),
       Attr.kv "sourceLinked" (AVal.i source_linked)]]

/-- The _write_major_tick_mark writer (source lines 1143-1151). -/
def writeMajorTickMark (v : Option String) : List Tok :=
  match v with
  | some s => if s = "" then [] else [Tok.emptyTag "c:majorTickMark" [Attr.kv "val" (AVal.s s)]]
  | none => []

/-- The _write_tick_label_pos writer (source lines 1153-1160). -/
def writeTickLabelPos (v : Option String) : List Tok :=
  let v := match v with
    | none => "continueTo"
    | some s => if s = "continue_to" then "continueTo" else s
  [Tok.emptyTag "c:tickLblPos" [Attr.kv "val" (AVal.s v)]]

/-- The _write_cross_axis writer (source lines 1162-1167). -/
def writeCrossAxis (v : Nat) : List Tok :=
  [Tok.emptyTag "c:crossAx" [Attr.kv "val" (AVal.i v)]]

/-- The _write_crosses writer (source lines 1169-1176): None becomes
autoZero. -/
def writeCrosses (v : Option String) : List Tok :=
  let v := v.getD "autoZero"
  [Tok.emptyTag "c:crosses" [Attr.kv "val" (AVal.s v)]]

/-- The _write_c_crosses_at writer (source lines 1178-1183). -/
def writeCrossesAt (v : Rat) : List Tok :=
  [Tok.emptyTag "c:crossesAt" [Attr.kv "val" (AVal.q v)]]

/-- The _write_auto writer (source lines 1185-1190). -/
def writeAuto (v : Nat) : List Tok :=
  [Tok.emptyTag "c:auto" [Attr.kv "val" (AVal.i v)]]

/-- The _write_label_offset writer (source lines 1200-1205). -/
def writeLabelOffset (v : Nat) : List Tok :=
  [Tok.emptyTag "c:lblOffset" [Attr.kv "val" (AVal.i v)]]

/-- The _write_cross_between writer (source lines 1243-1249).  The attribute
cross_between is assigned nowhere in src/; its initialization belongs to the
chart-type variant layer, so it is modelled as an optional chart field with
the falsy-or default of the source. -/
def writeCrossBetween (ch : Chart) : List Tok :=
  [Tok.emptyTag "c:crossBetween" [Attr.kv "val" (AVal.s (pyOrS ch.cross_between "between"))]]

/-- The _write_c_major_unit writer (source lines 1251-1259): a falsy unit
(absent or zero) writes nothing. -/
def writeCMajorUnit (v : Option Rat) : List Tok :=
  match v with
  | some u => if u = 0 then [] else [Tok.emptyTag "c:majorUnit" [Attr.kv "val" (AVal.q u)]]
  | none => []

/-- The _write_c_minor_unit writer (source lines 1261-1269). -/
def writeCMinorUnit (v : Option Rat) : List Tok :=
  match v with
  | some u => if u = 0 then [] else [Tok.emptyTag "c:minorUnit" [Attr.kv "val" (AVal.q u)]]
  | none => []

/-- String form of an attribute value as the data-element writer receives
it. -/
def avalStr : AVal → String
  | .s v => v
  | .i v => toString v
  | .q v => toString v

/-- The _write_v writer (source lines 2003-2006). -/
def writeV (v : AVal) : List Tok :=
  [Tok.dataEl "c:v" (avalStr v)]

/-- The _write_pt writer (source lines 1988-2001): a None value writes
nothing. -/
def writePt (idx : Nat) : Option AVal → List Tok
  | none => []
  | some v =>
    [Tok.startTag "c:pt" [Attr.kv "idx" (AVal.i idx)]] ++ writeV v
    ++ [Tok.endTag "c:pt"]

/-- The _write_pt_count writer (source lines 1981-1986). -/
def writePtCount (v : Nat) : List Tok :=
  [Tok.emptyTag "c:ptCount" [Attr.kv "val" (AVal.i v)]]

/-- The _write_format_code writer (source lines 1976-1979). -/
def writeFormatCode (v : String) : List Tok :=
  [Tok.dataEl "c:formatCode" v]

/-- The _write_num_cache writer (source lines 1935-1959).  len(data) faults
when the cache entry carries no data.  The per-point loop is commented out in
the source, so no pt elements are written. -/
def writeNumCache : Option CacheData → Emit
  | none => Emit.fail "TypeError: object of type NoneType has no len()"
  | some d =>
    emit ([Tok.startTag "c:numCache" []]
      ++ writeFormatCode "General"
      ++ writePtCount d.length
      ++ [Tok.endTag "c:numCache"])

/-- The _write_str_cache writer (source lines 1961-1974). -/
def writeStrCache : Option CacheData → Emit
  | none => Emit.fail "TypeError: object of type NoneType has no len()"
  | some d =>
    emit ([Tok.startTag "c:strCache" []]
      ++ writePtCount d.length
      ++ (List.range d.length).flatMap (fun i => writePt i (d.getD i none))
      ++ [Tok.endTag "c:strCache"])

/-- The _write_num_ref writer (source lines 624-638). -/
def writeNumRef (formula : String) (data : Option CacheData) (ref_type : String) : Emit :=
  Emit.seq (emit ([Tok.startTag "c:numRef" []] ++ writeSeriesFormula formula))
  (Emit.seq
    (if ref_type = "num" then writeNumCache data
     else if ref_type = "str" then writeStrCache data
     else emit [])
    (emit [Tok.endTag "c:numRef"]))

/-- The _write_str_ref writer (source lines 640-655). -/
def writeStrRef (formula : String) (data : Option CacheData) (ref_type : String) : Emit :=
  Emit.seq (emit ([Tok.startTag "c:strRef" []] ++ writeSeriesFormula formula))
  (Emit.seq
    (if ref_type = "num" then writeNumCache data
     else if ref_type = "str" then writeStrCache data
     else emit [])
    (emit [Tok.endTag "c:strRef"]))

/-- The _write_a_body_pr writer (source lines 1498-1511).  When horiz is
falsy the source replaces the attribute list with `[()]`, a single empty
tuple, modelled by the malformed Attr.unit item. -/
def writeABodyPr (horiz : Option Nat) : List Tok :=
  let attributes :=
    [Attr.kv "rot" (AVal.i (-5400000)), Attr.kv "vert" (AVal.s "horz")]
  let attributes := if ¬ truthyN horiz then [Attr.unit] else attributes
  [Tok.emptyTag "a:bodyPr" attributes]

/-- The _write_a_lst_style writer (source lines 1513-1515). -/
def writeALstStyle : List Tok :=
  [Tok.emptyTag "a:lstStyle" []]

/-- The _write_a_def_rpr writer (source lines 1563-1584).  When latin
attributes are present the source calls _write_a_latin(latin_attributes),
but _write_a_latin is defined with no parameters (line 2158), so the call
raises TypeError. -/
def writeADefRpr (font : Option Font) : Emit :=
  let style_attributes := getFontStyleAttributes font
  let latin_attributes := getFontLatinAttributes font
  let has_color := match font with
    | some f => truthyS f.color
    | none => false
  if (!latin_attributes.isEmpty) || has_color then
    Emit.seq (emit [Tok.startTag "a:defRPr" style_attributes])
    (Emit.seq
      (emit (if has_color then writeASolidFill (font.bind Font.color) else []))
    (Emit.seq
      (if !latin_attributes.isEmpty then
        Emit.fail "TypeError: _write_a_latin() takes 1 positional argument"
       else emit [])
      (emit [Tok.endTag "a:defRPr"])))
  else emit [Tok.emptyTag "a:defRPr" style_attributes]

/-- The _write_a_end_para_rpr writer (source lines 1586-1592). -/
def writeAEndParaRpr : List Tok :=
  [Tok.emptyTag "a:endParaRPr" [Attr.kv "lang" (AVal.s "en-US")]]

/-- The _write_a_t writer (source lines 1641-1644). -/
def writeAT (title : String) : List Tok :=
  [Tok.dataEl "a:t" title]

/-- The _write_a_r_pr writer (source lines 1607-1639).  The source rebuilds
the attribute list as `[(lang, en-US, style_attributes)]`, a single 3-tuple
(modelled by Attr.triple with the nested list elided); the latin branch
raises the same _write_a_latin TypeError as the defRPr writer. -/
def writeARPr (font : Option Font) : Emit :=
  let latin_attributes := getFontLatinAttributes font
  let has_color := match font with
    | some f => truthyS f.color
    | none => false
  let style_attributes := [Attr.triple "lang" (AVal.s "en-US")]
  if (!latin_attributes.isEmpty) || has_color then
    Emit.seq (emit [Tok.startTag "a:rPr" style_attributes])
    (Emit.seq
      (emit (if has_color then writeASolidFill (font.bind Font.color) else []))
    (Emit.seq
      (if !latin_attributes.isEmpty then
        Emit.fail "TypeError: _write_a_latin() takes 1 positional argument"
       else emit [])
      (emit [Tok.endTag "a:rPr"])))
  else emit [Tok.emptyTag "a:rPr" style_attributes]

/-- The _write_a_r writer (source lines 1594-1605). -/
def writeAR (title : String) (font : Option Font) : Emit :=
  Emit.seq (emit [Tok.startTag "a:r" []])
  (Emit.seq (writeARPr font)
    (emit (writeAT title ++ [Tok.endTag "a:r"])))

/-- The _write_a_p_pr_rich writer (source lines 1543-1551). -/
def writeAPPrRich (font : Option Font) : Emit :=
  Emit.seq (emit [Tok.startTag "a:pPr" []])
  (Emit.seq (writeADefRpr font) (emit [Tok.endTag "a:pPr"]))

/-- The _write_a_p_pr_formula writer (source lines 1553-1561). -/
def writeAPPrFormula (font : Option Font) : Emit :=
  Emit.seq (emit [Tok.startTag "a:pPr" []])
  (Emit.seq (writeADefRpr font) (emit [Tok.endTag "a:pPr"]))

/-- The _write_a_p_rich writer (source lines 1517-1528). -/
def writeAPRich (title : String) (font : Option Font) : Emit :=
  Emit.seq (emit [Tok.startTag "a:p" []])
  (Emit.seq (writeAPPrRich font)
  (Emit.seq (writeAR title font)
    (emit [Tok.endTag "a:p"])))

/-- The _write_a_p_formula writer (source lines 1530-1541). -/
def writeAPFormula (font : Option Font) : Emit :=
  Emit.seq (emit [Tok.startTag "a:p" []])
  (Emit.seq (writeAPPrFormula font)
    (emit (writeAEndParaRpr ++ [Tok.endTag "a:p"])))

/-- The _write_rich writer (source lines 1482-1496). -/
def writeRich (title : String) (horiz : Option Nat) (font : Option Font) : Emit :=
  Emit.seq (emit ([Tok.startTag "c:rich" []] ++ writeABodyPr horiz ++ writeALstStyle))
  (Emit.seq (writeAPRich title font)
    (emit [Tok.endTag "c:rich"]))

/-- The _write_tx_rich writer (source lines 1448-1456). -/
def writeTxRich (title : String) (horiz : Option Nat) (font : Option Font) : Emit :=
  Emit.seq (emit [Tok.startTag "c:tx" []])
  (Emit.seq (writeRich title horiz font) (emit [Tok.endTag "c:tx"]))

/-- The _write_tx_value writer (source lines 1458-1466). -/
def writeTxValue (title : String) : List Tok :=
  [Tok.startTag "c:tx" []] ++ writeV (AVal.s title) ++ [Tok.endTag "c:tx"]

/-- The _write_tx_formula writer (source lines 1468-1480): a present data id
indexes formula_data (an unassigned id is an IndexError fault, the
programming-error class of the design document). -/
def writeTxFormula (ch : Chart) (title : String) (data_id : Option Nat) : Emit :=
  match data_id with
  | some id =>
    match ch.formula_data.get? id with
    | none => Emit.fail "IndexError: formula_data index out of range"
    | some entry =>
      Emit.seq (emit [Tok.startTag "c:tx" []])
      (Emit.seq (writeStrRef title entry "str") (emit [Tok.endTag "c:tx"]))
  | none =>
    Emit.seq (emit [Tok.startTag "c:tx" []])
    (Emit.seq (writeStrRef title none "str") (emit [Tok.endTag "c:tx"]))

/-- The _write_layout writer (source lines 496-498). -/
def writeLayout : List Tok :=
  [Tok.emptyTag "c:layout" []]

/-- The _write_tx_pr writer (source lines 1646-1660). -/
def writeTxPr (horiz : Option Nat) (font : Option Font) : Emit :=
  Emit.seq (emit ([Tok.startTag "c:txPr" []] ++ writeABodyPr horiz ++ writeALstStyle))
  (Emit.seq (writeAPFormula font) (emit [Tok.endTag "c:txPr"]))

/-- The _write_title_rich writer (source lines 1419-1430). -/
def writeTitleRich (title : String) (horiz : Option Nat) (font : Option Font) : Emit :=
  Emit.seq (emit [Tok.startTag "c:title" []])
  (Emit.seq (writeTxRich title horiz font)
    (emit (writeLayout ++ [Tok.endTag "c:title"])))

/-- The _write_title_formula writer (source lines 1432-1446). -/
def writeTitleFormula (ch : Chart) (title : String) (data_id : Option Nat)
    (horiz : Option Nat) (font : Option Font) : Emit :=
  Emit.seq (emit [Tok.startTag "c:title" []])
  (Emit.seq (writeTxFormula ch title data_id)
  (Emit.seq (emit writeLayout)
  (Emit.seq (writeTxPr horiz font)
    (emit [Tok.endTag "c:title"]))))

/-- The _write_axis_font writer (source lines 2141-2156). -/
def writeAxisFont (font : Option Font) : Emit :=
  match font with
  | none => emit []
  | some f =>
    Emit.seq (emit ([Tok.startTag "c:txPr" [], Tok.emptyTag "a:bodyPr" []]
      ++ writeALstStyle ++ [Tok.startTag "a:p" []]))
    (Emit.seq (writeAPPrRich (some f))
      (emit (writeAEndParaRpr ++ [Tok.endTag "a:p", Tok.endTag "c:txPr"])))

/-- The _write_cat_axis writer (source lines 689-767).  The guard skips an
empty id list; the position read on the initial empty-dict axis faults; and
the call at source line 710 passes a single argument to the four-parameter
_write_scaling, a TypeError, so every statement after it (delete, position,
gridlines, title, number format, tick marks, fonts, cross-axis, crossing,
auto, label alignment, label offset, closing tag) is unreachable; it is kept
below the fault in the chain as the source text has it.  A second arity
fault sits at source line 762, where _write_label_align is called with an
argument although it is defined with none. -/
def writeCatAxis (ch : Chart) (x_axis y_axis : Option Axis)
    (axis_ids : List Nat) : Emit :=
  if axis_ids.isEmpty then emit []
  else
    match x_axis with
    | none => Emit.fail "AttributeError: the x axis is still the initial empty dict"
    | some x =>
      let position := pyOrS x.position ch.cat_axis_position
      let horiz := ch.horiz_cat_axis
      Emit.seq (emit ([Tok.startTag "c:catAx" []] ++ writeAxisId (axis_ids.headD 0)))
      (Emit.seq (Emit.fail "TypeError: _write_scaling() missing 3 required positional arguments")
      (Emit.seq (emit (if ¬ x.visible then writeDelete 1 else []))
      (Emit.seq (match y_axis with
                 | none => Emit.fail "AttributeError: the y axis is still the initial empty dict"
                 | some y => emit (writeAxisPos position y.reverse))
      (Emit.seq (emit (writeMajorGridlines x.major_gridlines))
      (Emit.seq (emit (writeMinorGridlines x.minor_gridlines))
      (Emit.seq (if truthyS x.formula then
                   writeTitleFormula ch (x.formula.getD "") x.data_id (some horiz) x.name_font
                 else if truthyS x.axName then
                   writeTitleRich (x.axName.getD "") (some horiz) x.name_font
                 else emit [])
      (Emit.seq (emit (writeCatNumberFormat ch x))
      (Emit.seq (emit (writeMajorTickMark x.major_tick_mark))
      (Emit.seq (emit (writeTickLabelPos x.label_position))
      (Emit.seq (writeAxisFont x.num_font)
      (Emit.seq (match axis_ids.get? 1 with
                 | none => Emit.fail "IndexError: list index out of range"
                 | some id1 => emit (writeCrossAxis id1))
      (Emit.seq (if ch.show_crosses || x.visible then
                   (match y_axis with
                    | none => Emit.fail "AttributeError: the y axis is still the initial empty dict"
                    | some y =>
                      match y.crossing with
                      | Crossing.unset => emit (writeCrosses none)
                      | Crossing.atMax => emit (writeCrosses (some "max"))
                      | Crossing.value v => emit (writeCrossesAt v))
                 else emit [])
      (Emit.seq (emit (writeAuto 1))
      (Emit.seq (Emit.fail "TypeError: _write_label_align() takes 1 positional argument")
      (emit (writeLabelOffset 100 ++ [Tok.endTag "c:catAx"]))))))))))))))))

/-- The _write_val_axis writer (source lines 769-846).  Its first statement
reads args[position], a key none of its callers (source lines 472-481)
supplies, so every call from _write_plot_area raises KeyError before the
opening tag.  The body below a present position key is as in the source; its
guard `if not axis_ids and len(axis_ids)` is an unsatisfiable conjunction
(the source has and where _write_cat_axis has or), so an empty id list falls
through to the axis_ids[1] read, an IndexError. -/
def writeValAxis (ch : Chart) (x_axis y_axis : Option Axis)
    (axis_ids : List Nat) (args_position : Option String) : Emit :=
  match args_position with
  | none => Emit.fail "KeyError: position"
  | some p =>
    let position0 := if p = "" then ch.val_axis_position else p
    let horiz := ch.horiz_val_axis
    if axis_ids.isEmpty ∧ axis_ids.length ≠ 0 then emit []
    else
      match y_axis with
      | none => Emit.fail "AttributeError: the y axis is still the initial empty dict"
      | some y =>
        let position := pyOrS y.position position0
        Emit.seq (emit [Tok.startTag "c:valAx" []])
        (Emit.seq (match axis_ids.get? 1 with
                   | none => Emit.fail "IndexError: list index out of range"
                   | some id1 => emit (writeAxisId id1))
        (Emit.seq (emit (writeScaling y.reverse y.minV y.maxV y.log_base))
        (Emit.seq (emit (if ¬ y.visible then writeDelete 1 else []))
        (Emit.seq (match x_axis with
                   | none => Emit.fail "AttributeError: the x axis is still the initial empty dict"
                   | some x => emit (writeAxisPos position x.reverse))
        (Emit.seq (emit (writeMajorGridlines y.major_gridlines))
        (Emit.seq (emit (writeMinorGridlines y.minor_gridlines))
        (Emit.seq (if truthyS y.formula then
                     writeTitleFormula ch (y.formula.getD "") y.data_id (some horiz) y.name_font
                   else if truthyS y.axName then
                     writeTitleRich (y.axName.getD "") (some horiz) y.name_font
                   else emit [])
        (Emit.seq (emit (writeNumberFormat y))
        (Emit.seq (emit (writeMajorTickMark y.major_tick_mark))
        (Emit.seq (emit (writeTickLabelPos y.label_position))
        (Emit.seq (writeAxisFont y.num_font)
        (Emit.seq (emit (writeCrossAxis (axis_ids.headD 0)))
        (Emit.seq (match x_axis with
                   | none => Emit.fail "AttributeError: the x axis is still the initial empty dict"
                   | some x =>
                     match x.crossing with
                     | Crossing.unset => emit (writeCrosses none)
                     | Crossing.atMax => emit (writeCrosses (some "max"))
                     | Crossing.value v => emit (writeCrossesAt v))
        (Emit.seq (emit (writeCrossBetween ch))
        (Emit.seq (emit (writeCMajorUnit y.major_unit))
        (Emit.seq (emit (writeCMinorUnit y.minor_unit))
          (emit [Tok.endTag "c:valAx"])))))))))))))))))

/-- The _write_cat writer (source lines 581-608).  Its first statement reads
series.categories, attribute access on the dict stored by add_series, which
raises AttributeError before anything is emitted; the category branch logic
below it (cat omitted for a falsy formula, string versus numeric reference
from the cached data type) is unreachable. -/
def writeCat (_ch : Chart) (_series : SeriesRec) : Emit :=
  Emit.fail "AttributeError: dict object has no attribute categories"

/-- The _write_val writer (source lines 610-622): faults the same way on the
series.values attribute read before the c:val element is started. -/
def writeVal (_ch : Chart) (_series : SeriesRec) : Emit :=
  Emit.fail "AttributeError: dict object has no attribute values"

/-- The _write_ser writer (source lines 515-558): the index bump and the
c:ser, c:idx and c:order writes precede the first series field read in
_write_series_name (series.name_formula, source line 576), attribute access
on the stored dict, which raises AttributeError there; the remaining
sub-elements (formatting, marker, labels, trendline, error bars, cat, val)
are unreachable. -/
def writeSer (ch : Chart) (_series : SeriesRec) : Emit × Chart :=
  let index := ch.series_index
  let ch := { ch with series_index := ch.series_index + 1 }
  (Emit.seq
     (emit ([Tok.startTag "c:ser" []] ++ writeIdx index ++ writeOrder index))
     (Emit.fail "AttributeError: dict object has no attribute name_formula"),
   ch)

/-- The _write_chart_space writer (source lines 381-395). -/
def writeChartSpace : List Tok :=
  [Tok.startTag "c:chartSpace"
    [Attr.kv "xmlns:c" (AVal.s "http://schemas.openxmlformats.org/drawingml/2006/chart"),
     Attr.kv "xmlns:a" (AVal.s "http://schemas.openxmlformats.org/drawingml/2006/main"),
     Attr.kv "xmlns:r" (AVal.s "http://schemas.openxmlformats.org/officeDocument/2006/relationships")]]

/-- The _write_lang writer (source lines 397-403). -/
def writeLang : List Tok :=
  [Tok.emptyTag "c:lang" [Attr.kv "val" (AVal.s "en-US")]]

/-- The _write_protection writer (source lines 2008-2013). -/
def writeProtection (ch : Chart) : List Tok :=
  if ¬ ch.protection then [] else [Tok.emptyTag "c:protection" []]

/-- The _write_disp_blanks_as writer (source lines 443-453): the default gap
value is suppressed. -/
def writeDispBlanksAs (ch : Chart) : List Tok :=
  if ch.show_blanks = "gap" then []
  else [Tok.emptyTag "c:dispBlanksAs" [Attr.kv "val" (AVal.s ch.show_blanks)]]

/-- The _write_plot_vis_only writer (source lines 1364-1374). -/
def writePlotVisOnly (ch : Chart) : List Tok :=
  if ch.show_hidden_data then []
  else [Tok.emptyTag "c:plotVisOnly" [Attr.kv "val" (AVal.i 1)]]

/-- The _write_legend writer (source lines 1289-1334).  After the none check
the source tests `if not 'position' in allowed` with the literal string,
which is never a key of the table, so the writer always returns silently;
the body below (including the lookup allowed[position] with the same
literal, a KeyError) is unreachable. -/
def writeLegend (ch : Chart) : Emit :=
  let allowed := [("right", "r"), ("left", "l"), ("top", "t"), ("bottom", "b")]
  if ch.legend_position = "none" then emit []
  else if ¬ (allowed.any (fun p => p.1 = "position")) then emit []
  else Emit.fail "KeyError: position"

/-- The _write_d_table writer (source lines 2164-2193): set_table stores a
plain dict (source lines 257-278) while this writer reads attributes
(table.horizontal), so a configured table faults on its first field read. -/
def writeDTable : Option TableRec → Emit
  | none => emit []
  | some _ =>
    Emit.seq (emit [Tok.startTag "c:dTable" []])
      (Emit.fail "AttributeError: dict object has no attribute horizontal")

/-- The _write_print_settings writer and its children (source lines
1376-1417). -/
def writePrintSettings : List Tok :=
  [Tok.startTag "c:printSettings" [], Tok.emptyTag "c:headerFooter" [],
   Tok.emptyTag "c:pageMargins"
     [Attr.kv "b" (AVal.q (3/4)), Attr.kv "l" (AVal.q (7/10)),
      Attr.kv "r" (AVal.q (7/10)), Attr.kv "t" (AVal.q (3/4)),
      Attr.kv "header" (AVal.q (3/10)), Attr.kv "footer" (AVal.q (3/10))],
   Tok.emptyTag "c:pageSetup" [], Tok.endTag "c:printSettings"]

/-- A chart-type plot writer: the single extension point implemented by the
chart-type variants, which are outside this core (design document Section
4.5).  Given the primary-axes flag and the chart state it returns the tokens
of its plot-group element and the updated state (series index bumps from the
series engine, minted axis id pairs). -/
def ChartTypeWriter := Bool → Chart → Emit × Chart

/-- The _write_plot_area writer (source lines 455-494), with the chart-type
element calls delegated to the extension point. -/
def writePlotArea (ch : Chart) (ct : ChartTypeWriter) : Emit × Chart :=
  let r1 := ct true ch
  let r2 := ct false r1.2
  let ch2 := r2.2
  (Emit.seq (emit ([Tok.startTag "c:plotArea" []] ++ writeLayout))
   (Emit.seq r1.1
   (Emit.seq r2.1
   (Emit.seq (writeCatAxis ch2 ch2.x_axis ch2.y_axis ch2.axis_ids)
   (Emit.seq (writeValAxis ch2 ch2.x_axis ch2.y_axis ch2.axis_ids none)
   (Emit.seq (writeValAxis ch2 ch2.x2_axis ch2.y2_axis ch2.axis2_ids none)
   (Emit.seq (writeCatAxis ch2 ch2.x2_axis ch2.y2_axis ch2.axis2_ids)
   (Emit.seq (writeDTable ch2.table)
   (Emit.seq (writeSpPr ch2.plotarea)
     (emit [Tok.endTag "c:plotArea"]))))))))), ch2)

/-- The _write_chart writer (source lines 417-441).  With no title ever set
the title attributes were never assigned (the constructor does not
initialize them), so the title read itself faults. -/
def writeChart (ch : Chart) (ct : ChartTypeWriter) : Emit × Chart :=
  let eTitle : Emit :=
    match ch.title with
    | none => Emit.fail "AttributeError: Chart object has no attribute title_formula"
    | some t =>
      if truthyS t.formula then
        writeTitleFormula ch (t.formula.getD "") t.data_id none t.font
      else if truthyS t.titleName then
        writeTitleRich (t.titleName.getD "") none t.font
      else emit []
  let rPA := writePlotArea ch ct
  let ch2 := rPA.2
  (Emit.seq (emit [Tok.startTag "c:chart" []])
   (Emit.seq eTitle
   (Emit.seq rPA.1
   (Emit.seq (writeLegend ch2)
   (Emit.seq (emit (writePlotVisOnly ch2))
   (Emit.seq (emit (writeDispBlanksAs ch2))
     (emit [Tok.endTag "c:chart"])))))), ch2)

/-- The _assemble_xml_file entry point (source lines 341-372), with the
chart-type plot writer supplied as the extension point.  The declaration and
the file close are the first and last tokens. -/
def assembleXmlFile (ch : Chart) (ct : ChartTypeWriter) : Emit :=
  let rC := writeChart ch ct
  Emit.seq (emit ([Tok.decl] ++ writeChartSpace ++ writeLang ++ writeStyle ch.style_id))
  (Emit.seq (emit (writeProtection ch))
  (Emit.seq rC.1
  (Emit.seq (writeSpPr rC.2.chartarea)
  (Emit.seq (if rC.2.embedded then emit writePrintSettings else emit [])
    (emit [Tok.endTag "c:chartSpace", Tok.close])))))

/-- A default axis record: visible, not reversed, no overrides (the state the
absent axis converter produces for an empty option map). -/
def axDefault : Axis where
  visible := true
  reverse := false
  position := none
  formula := none
  data_id := none
  axName := none
  name_font := none
  num_font := none
  num_format := "General"
  defaults_num_format := "General"
  num_format_linked := false
  major_tick_mark := none
  label_position := none
  crossing := Crossing.unset
  major_gridlines := none
  minor_gridlines := none
  minV := none
  maxV := none
  log_base := none
  major_unit := none
  minor_unit := none
  major_unit_type := none
  minor_unit_type := none

/-- An add_series option map with only a values range. -/
def demoValuesOpts : AddSeriesOptions where
  values := some (RangeSpec.formula "Sheet1!$B$2:$B$5")
  categories := none
  optName := none
  name_formula := none
  categories_data := none
  values_data := none
  name_data := none
  line := none
  border := none
  fill := none
  marker := none
  trendline := none
  y_error_bars := none
  x_error_bars := none
  points := none
  data_labels := none
  invert_if_negative := none
  gap := none
  overlap := none
  x2_axis := none
  y2_axis := none

/-- The chart after one successful add_series call. -/
def demoChartWithSeries : Chart := (addSeries chartInit demoValuesOpts).1

/-- An add_series option map carrying categories and a name but no values
key. -/
def demoNoValuesOpts : AddSeriesOptions where
  values := none
  categories := some (RangeSpec.formula "Sheet1!$A$2:$A$5")
  optName := some "Series 1"
  name_formula := none
  categories_data := none
  values_data := none
  name_data := none
  line := none
  border := none
  fill := none
  marker := none
  trendline := none
  y_error_bars := none
  x_error_bars := none
  points := none
  data_labels := none
  invert_if_negative := none
  gap := none
  overlap := none
  x2_axis := none
  y2_axis := none

/-- Fallback series record for list indexing in concrete statements. -/
def seriesFallback : SeriesRec where
  values := none
  categories := none
  name := none
  name_formula := none
  name_id := none
  val_data_id := none
  cat_data_id := none
  line := getLineProperties none
  fill := getFillProperties none
  marker := none
  trendline := none
  labels := none
  invert_if_neg := false
  x2_axis := none
  y2_axis := none
  points := none
  error_bars := { x_error_bars := none, y_error_bars := none }

/-- A fully populated chart model in the sense of the interface section: one
series, all four axis records resolved, a literal title. -/
def populatedChart : Chart :=
  { demoChartWithSeries with
      x_axis := some axDefault
      y_axis := some axDefault
      x2_axis := some axDefault
      y2_axis := some axDefault
      title := some { titleName := some "Results", formula := none,
                      data_id := none, font := none } }

/-- A chart-type plot writer that emits nothing and leaves the state alone
(the least that a variant can do). -/
def ctEmpty : ChartTypeWriter := fun _ ch => (emit [], ch)

/-- Helper for the C1 chain: a value-axis call without a position key always
faults at its first statement, whatever the state. -/
theorem writeValAxis_no_position_fault (ch : Chart) (x y : Option Axis)
    (ids : List Nat) : (writeValAxis ch x y ids none).fault.isSome = true := rfl

/-- C2: for every chart and every options map lacking a values key,
add_series issues the warning and returns the chart completely unchanged:
no series is appended and no other field is modified. -/
theorem add_series_without_values (ch : Chart) (opts : AddSeriesOptions)
    (h : opts.values = none) :
    addSeries ch opts = (ch, ["Must specify values in add_series()"]) := by
  unfold addSeries
  rw [h]
  rfl

/-- Witness for C2 at a chart that already holds one series and an options
map that carries categories and a name but no values. -/
theorem add_series_without_values_witness :
    demoNoValuesOpts.values = none
    ∧ addSeries demoChartWithSeries demoNoValuesOpts
        = (demoChartWithSeries, ["Must specify values in add_series()"]) :=
  ⟨rfl, add_series_without_values demoChartWithSeries demoNoValuesOpts rfl⟩

/-- C3: show_blanks_as with the valid option zero does not set the
blanks-display mode; it warns and leaves the chart unchanged, because the
source tests the literal string option against the valid-options table
instead of the argument. -/
theorem show_blanks_as_ignores_valid_option :
    (showBlanksAs chartInit "zero").1.show_blanks = "gap"
    ∧ (showBlanksAs chartInit "zero").1 = chartInit
    ∧ (showBlanksAs chartInit "zero").2
        = ["Unknown show_blanks_as() option zero"] :=
  ⟨rfl, rfl, rfl⟩

/-- C4: a None or out-of-range style id resolves to the default 2; the style
element is emitted exactly when the stored id differs from 2; in particular
set_style(50) stores 2 and suppresses the element. -/
theorem set_style_out_of_range_default (s : Option Int)
    (h : s = none ∨ ∃ v, s = some v ∧ (v < 0 ∨ 42 < v)) :
    setStyle s = 2 ∧ writeStyle (setStyle s) = []
    ∧ (∀ t : Int, writeStyle t ≠ [] ↔ t ≠ 2)
    ∧ setStyle (some 50) = 2 ∧ writeStyle (setStyle (some 50)) = [] := by
  have hmain : setStyle s = 2 := by
    rcases h with rfl | ⟨v, rfl, hv⟩
    · rfl
    · simp only [setStyle]
      rw [if_pos hv]
  refine ⟨hmain, by rw [hmain]; rfl, ?_, by decide, by decide⟩
  intro t
  by_cases ht : t = 2 <;> simp [writeStyle, ht]

/-- Witness for C4 at the out-of-range id 50. -/
theorem set_style_out_of_range_witness :
    ((some 50 : Option Int) = none
      ∨ ∃ v, (some 50 : Option Int) = some v ∧ (v < 0 ∨ 42 < v))
    ∧ setStyle (some 50) = 2 ∧ writeStyle (setStyle (some 50)) = [] := by
  have h : (some 50 : Option Int) = none
      ∨ ∃ v, (some 50 : Option Int) = some v ∧ (v < 0 ∨ 42 < v) :=
    Or.inr ⟨50, rfl, Or.inr (by decide)⟩
  exact ⟨h, (set_style_out_of_range_default (some 50) h).1,
    (set_style_out_of_range_default (some 50) h).2.1⟩

/-- C5: on an invisible category axis the writer faults (in the bad
_write_scaling call) before the delete step, so the emitted tokens of the
axis element contain no delete indicator at all. -/
theorem invisible_axis_delete_unreachable :
    (writeCatAxis chartInit (some { axDefault with visible := false })
        (some axDefault) [40001, 40002]).fault.isSome = true
    ∧ hasTag "c:delete"
        (writeCatAxis chartInit (some { axDefault with visible := false })
          (some axDefault) [40001, 40002]).toks = false :=
  ⟨rfl, by decide⟩

/-- C7: on a concrete id pair the category-axis writer emits its own id but
faults before the cross-axis reference, and the value-axis writer faults
before emitting anything, so no written axis pair with mutual references
exists. -/
theorem axis_pair_cross_reference_unreachable :
    hasTag "c:axId"
        (writeCatAxis chartInit (some axDefault) (some axDefault)
          [41000, 41001]).toks = true
    ∧ hasTag "c:crossAx"
        (writeCatAxis chartInit (some axDefault) (some axDefault)
          [41000, 41001]).toks = false
    ∧ (writeCatAxis chartInit (some axDefault) (some axDefault)
        [41000, 41001]).fault.isSome = true
    ∧ (writeValAxis chartInit (some axDefault) (some axDefault)
        [41000, 41001] none).toks = []
    ∧ (writeValAxis chartInit (some axDefault) (some axDefault)
        [41000, 41001] none).fault.isSome = true :=
  ⟨by decide, by decide, rfl, rfl, rfl⟩

/-- C8: with an explicit crossing value on the value axis, the category-axis
writer faults before the crossing step, emitting neither crosses nor
crossesAt, and the value-axis writer emits nothing. -/
theorem crossing_elements_unreachable :
    hasTag "c:crosses"
        (writeCatAxis chartInit (some axDefault)
          (some { axDefault with crossing := Crossing.value 5 })
          [42000, 42001]).toks = false
    ∧ hasTag "c:crossesAt"
        (writeCatAxis chartInit (some axDefault)
          (some { axDefault with crossing := Crossing.value 5 })
          [42000, 42001]).toks = false
    ∧ (writeCatAxis chartInit (some axDefault)
        (some { axDefault with crossing := Crossing.value 5 })
        [42000, 42001]).fault.isSome = true
    ∧ (writeValAxis chartInit
        (some { axDefault with crossing := Crossing.value 5 })
        (some axDefault) [42000, 42001] none).toks = [] :=
  ⟨by decide, by decide, rfl, rfl⟩

/-- C9: the category and value reference writers fault on the first attribute
read of the dict stored by add_series, so for the stored series neither a cat
nor a val element is ever emitted. -/
theorem cat_val_writers_fault_on_stored_series :
    demoChartWithSeries.series.length = 1
    ∧ (writeCat demoChartWithSeries
        (demoChartWithSeries.series.getD 0 seriesFallback)).toks = []
    ∧ (writeCat demoChartWithSeries
        (demoChartWithSeries.series.getD 0 seriesFallback)).fault.isSome = true
    ∧ (writeVal demoChartWithSeries
        (demoChartWithSeries.series.getD 0 seriesFallback)).toks = []
    ∧ (writeVal demoChartWithSeries
        (demoChartWithSeries.series.getD 0 seriesFallback)).fault.isSome = true :=
  ⟨rfl, rfl, rfl, rfl, rfl⟩

/-- C10: the written formula is the input with every leading equals sign
removed, and an input without a leading equals sign is written unchanged. -/
theorem series_formula_strips_leading_equals (formula : String) :
    writeSeriesFormula formula
      = [Tok.dataEl "c:f" (String.mk (formula.data.dropWhile (fun c => c = '=')))]
    ∧ (pyStartsWithEq formula = false →
        writeSeriesFormula formula = [Tok.dataEl "c:f" formula]) := by
  have hdrop : pyStartsWithEq formula = false →
      formula.data.dropWhile (fun c => c = '=') = formula.data := by
    intro h
    cases hf : formula.data with
    | nil => simp
    | cons a t =>
      have ha : ¬ (a = '=') := by
        intro ha
        rw [pyStartsWithEq, hf, ha] at h
        simp at h
      simp [List.dropWhile, ha]
  constructor
  · by_cases h : pyStartsWithEq formula = true
    · simp [writeSeriesFormula, h, pyLstripEq]
    · have h0 : pyStartsWithEq formula = false := by
        cases hb : pyStartsWithEq formula
        · rfl
        · exact absurd hb h
      simp only [writeSeriesFormula, h0, Bool.false_eq_true, if_false,
        hdrop h0]
  · intro h0
    simp only [writeSeriesFormula, h0, Bool.false_eq_true, if_false]

/-- C1: for the fully populated chart model, emission faults whatever the
chart-type plot writer does: the plot-area chain always reaches a value-axis
call without a position key (and, when axis ids exist, the bad scaling call
in the category axis first), so the document is never completed. -/
theorem assemble_xml_file_never_completes (ct : ChartTypeWriter) :
    (assembleXmlFile populatedChart ct).fault.isSome = true := by
  unfold assembleXmlFile writeChart writePlotArea
  simp only [Emit.seq_fault_isSome, writeValAxis_no_position_fault,
    Bool.or_true, Bool.true_or]

/-- Witness for C1: the fault is reached already with the plot writer that
emits nothing. -/
theorem assemble_xml_file_never_completes_witness :
    (assembleXmlFile populatedChart ctEmpty).fault.isSome = true :=
  assemble_xml_file_never_completes ctEmpty

/-- Witness for C10 at a range formula without a leading equals sign. -/
theorem series_formula_witness :
    pyStartsWithEq "Sheet1!$A$1:$A$5" = false
    ∧ writeSeriesFormula "Sheet1!$A$1:$A$5"
        = [Tok.dataEl "c:f" "Sheet1!$A$1:$A$5"] :=
  ⟨by decide,
   (series_formula_strips_leading_equals "Sheet1!$A$1:$A$5").2 (by decide)⟩

/-- Helper for C6: the solid-fill block contains no self-closed tag named n
unless n is the srgbClr tag. -/
theorem writeASolidFill_emptyOf_mem (color : Option String) (n : String)
    (h2 : "a:srgbClr" ≠ n) :
    ∀ t ∈ writeASolidFill color, isEmptyOf n t = false := by
  intro t ht
  rcases color with _ | c
  · simp [writeASolidFill] at ht
    rcases ht with rfl | rfl <;> rfl
  · by_cases hc : c = ""
    · simp [writeASolidFill, hc] at ht
      rcases ht with rfl | rfl <;> rfl
    · simp [writeASolidFill, hc, getColor] at ht
      rcases ht with rfl | rfl | rfl
      · rfl
      · simpa [isEmptyOf] using h2
      · rfl

/-- Helper for C6: the line block contains no self-closed tag named n unless
n is one of its own element names. -/
theorem writeALn_emptyOf_mem (line : LineRec) (n : String)
    (h1 : "a:noFill" ≠ n) (h2 : "a:srgbClr" ≠ n) (h3 : "a:prstDash" ≠ n) :
    ∀ t ∈ writeALn line, isEmptyOf n t = false := by
  intro t ht
  simp only [writeALn, List.mem_append, List.mem_singleton, List.mem_cons,
    List.not_mem_nil, or_false] at ht
  rcases ht with ((rfl | hfillpart) | hdashpart) | rfl
  · rfl
  · rcases hb : line.none_ with _ | _
    · rw [hb] at hfillpart
      simp only [Bool.false_eq_true, if_false] at hfillpart
      rcases hcl : line.color with _ | c
      · rw [hcl] at hfillpart
        simp at hfillpart
      · rw [hcl] at hfillpart
        by_cases hc : c = ""
        · simp [hc] at hfillpart
        · simp [hc] at hfillpart
          exact writeASolidFill_emptyOf_mem (some c) n h2 t hfillpart
    · rw [hb] at hfillpart
      simp only [if_pos rfl] at hfillpart
      simp at hfillpart
      subst hfillpart
      simpa [isEmptyOf] using h1
  · rcases hdl : line.dash_type with _ | d
    · rw [hdl] at hdashpart
      simp at hdashpart
    · rw [hdl] at hdashpart
      by_cases hd : d = ""
      · simp [hd] at hdashpart
      · simp [hd] at hdashpart
        subst hdashpart
        simpa [isEmptyOf] using h3
  · rfl

/-- Helper for C6: the shape-properties block contains no self-closed tag
named like a gridlines element, whatever the line and fill records hold. -/
theorem spPrToks_no_gridlines_empty (r : FormatRec) (n : String)
    (hn : n = "c:majorGridlines" ∨ n = "c:minorGridlines") :
    (spPrToks r).any (isEmptyOf n) = false := by
  have h1 : "a:noFill" ≠ n := by rcases hn with rfl | rfl <;> decide
  have h2 : "a:srgbClr" ≠ n := by rcases hn with rfl | rfl <;> decide
  have h3 : "a:prstDash" ≠ n := by rcases hn with rfl | rfl <;> decide
  rw [List.any_eq_false]
  intro t ht
  simp only [spPrToks, List.mem_append, List.mem_singleton] at ht
  rcases ht with ((rfl | hfillpart) | hlnpart) | rfl
  · simp [isEmptyOf]
  · rcases hf : r.fill.none_ with _ | _
    · rw [hf] at hfillpart
      simp only [Bool.false_eq_true, if_false] at hfillpart
      simp [writeASolidFill_emptyOf_mem r.fill.color n h2 t hfillpart]
    · rw [hf] at hfillpart
      simp only [if_pos rfl] at hfillpart
      simp at hfillpart
      subst hfillpart
      simpa [isEmptyOf] using h1
  · simp [writeALn_emptyOf_mem r.line n h1 h2 h3 t hlnpart]
  · simp [isEmptyOf]

/-- C6: the gridlines writers emit nothing for an absent or invisible
config; exactly one self-closed marker for a visible config whose line is
not defined; exactly one gridlines element containing the shape-properties
child (which carries the a:ln description of that line) when the line is
defined; and the two shapes are mutually exclusive on every input. -/
theorem gridlines_emission_shapes (g : Gridlines) :
    (writeMajorGridlines none = [] ∧ writeMinorGridlines none = [])
    ∧ (g.visible = false →
        writeMajorGridlines (some g) = [] ∧ writeMinorGridlines (some g) = [])
    ∧ (g.visible = true → g.line.defined = false →
        writeMajorGridlines (some g) = [Tok.emptyTag "c:majorGridlines" []]
        ∧ writeMinorGridlines (some g) = [Tok.emptyTag "c:minorGridlines" []])
    ∧ (g.visible = true → g.line.defined = true →
        writeMajorGridlines (some g)
          = [Tok.startTag "c:majorGridlines" []]
            ++ spPrToks { line := g.line, fill := g.fill }
            ++ [Tok.endTag "c:majorGridlines"]
        ∧ writeMinorGridlines (some g)
          = [Tok.startTag "c:minorGridlines" []]
            ++ spPrToks { line := g.line, fill := g.fill }
            ++ [Tok.endTag "c:minorGridlines"]
        ∧ hasTag "c:spPr" (spPrToks { line := g.line, fill := g.fill }) = true
        ∧ hasTag "a:ln" (spPrToks { line := g.line, fill := g.fill }) = true)
    ∧ (∀ og : Option Gridlines,
        ((writeMajorGridlines og).any (isStartOf "c:majorGridlines")
          && (writeMajorGridlines og).any (isEmptyOf "c:majorGridlines")) = false
        ∧ ((writeMinorGridlines og).any (isStartOf "c:minorGridlines")
          && (writeMinorGridlines og).any (isEmptyOf "c:minorGridlines")) = false) := by
  refine ⟨⟨rfl, rfl⟩, ?_, ?_, ?_, ?_⟩
  · intro hv
    constructor <;> simp [writeMajorGridlines, writeMinorGridlines, hv]
  · intro hv hd
    constructor <;> simp [writeMajorGridlines, writeMinorGridlines, hv, hd]
  · intro hv hd
    refine ⟨?_, ?_, ?_, ?_⟩
    · simp [writeMajorGridlines, hv, hd]
    · simp [writeMinorGridlines, hv, hd]
    · simp [hasTag, spPrToks, Tok.name]
    · simp [hasTag, spPrToks, writeALn, Tok.name, List.any_append]
  · intro og
    rcases og with _ | gg
    · exact ⟨rfl, rfl⟩
    · constructor
      · by_cases hv : gg.visible
        · by_cases hd : gg.line.defined
          · simp [writeMajorGridlines, hv, hd, List.any_append, isEmptyOf,
              spPrToks_no_gridlines_empty _ _ (Or.inl rfl)]
          · simp [writeMajorGridlines, hv, hd, isStartOf]
        · simp [writeMajorGridlines, hv]
      · by_cases hv : gg.visible
        · by_cases hd : gg.line.defined
          · simp [writeMinorGridlines, hv, hd, List.any_append, isEmptyOf,
              spPrToks_no_gridlines_empty _ _ (Or.inr rfl)]
          · simp [writeMinorGridlines, hv, hd, isStartOf]
        · simp [writeMinorGridlines, hv]

/-- A visible gridlines config with an explicitly defined red line. -/
def gridDemo : Gridlines where
  visible := true
  line := { defined := true, none_ := false, color := some "FF0000",
            width := none, dash_type := none }
  fill := getFillProperties none

/-- Witness for C6 at a visible config with a defined line. -/
theorem gridlines_emission_shapes_witness :
    gridDemo.visible = true ∧ gridDemo.line.defined = true
    ∧ writeMajorGridlines (some gridDemo)
        = [Tok.startTag "c:majorGridlines" []]
          ++ spPrToks { line := gridDemo.line, fill := gridDemo.fill }
          ++ [Tok.endTag "c:majorGridlines"]
    ∧ hasTag "c:spPr"
        (spPrToks { line := gridDemo.line, fill := gridDemo.fill }) = true :=
  ⟨rfl, rfl, ((gridlines_emission_shapes gridDemo).2.2.2.1 rfl rfl).1,
    ((gridlines_emission_shapes gridDemo).2.2.2.1 rfl rfl).2.2.1⟩

end ChartXml
